import Mathlib

/-!
Verification of the adapter layer in `mcp_server/src/services`:
the HTTP reranker client (`reranker.py`) and the custom structured-output
LLM clients (`custom_llm_clients.py`).

The embedding is shallow: every Python function that the claims touch is
translated into an executable Lean definition.  External library calls
(`json.loads`, the HTTP transport, the provider endpoint) are modelled as
explicit parameters or oracle functions describing the outcome of each
network attempt, so that the control flow of the adapter itself is the
object of study.  Scores and numeric JSON payloads are modelled as exact
rationals.
-/

/-! ### Reranker data model (`reranker.py`)

A response entry is one element of the `results` list of the endpoint
response body: an optional `index` field and an optional
`relevance_score` field.  A score value is either something `float`
accepts (modelled as an exact rational) or something on which `float`
raises `ValueError`/`TypeError`.  A missing (`None`) score also makes
`float` raise, so it falls together with the non-numeric case in
`floatCoerce` below. -/

inductive ScoreValue where
  | num (q : ℚ)
  | nonNumeric
deriving DecidableEq, Repr

structure RerankEntry where
  index : Option Int
  relevance_score : Option ScoreValue
deriving DecidableEq, Repr

/-- Models lines 76-79 of `reranker.py`: `score = float(score)` guarded by
`except (ValueError, TypeError): score = 0.0`; a missing score (`None`)
raises `TypeError` inside `float` and therefore also yields `0.0`. -/
def floatCoerce : Option ScoreValue → ℚ
  | some (ScoreValue.num q) => q
  | some ScoreValue.nonNumeric => 0
  | none => 0

/-- Models the reconciliation loop of `rank` (lines 69-81 of
`reranker.py`): for each response entry, if `index` is present and
`0 <= idx < len(passages)`, append `(passages[idx], float-coerced score)`;
otherwise skip the entry. -/
def reconcile (passages : List String) : List RerankEntry → List (String × ℚ)
  | [] => []
  | ⟨none, _⟩ :: rest => reconcile passages rest
  | ⟨some idx, sc⟩ :: rest =>
    if h : 0 ≤ idx ∧ idx < (passages.length : Int) then
      (passages.get ⟨idx.toNat, by omega⟩, floatCoerce sc) ::
        reconcile passages rest
    else
      reconcile passages rest

/-- Comparator used to model line 87 of `reranker.py`:
`ranked_passages.sort(key=lambda x: x[1], reverse=True)`.  Python performs a
stable sort; placing `a` before `b` whenever `b.2 ≤ a.2` together with a
stable merge sort reproduces exactly the stable descending order. -/
def scoreDescLE (a b : String × ℚ) : Bool := decide (b.2 ≤ a.2)

/-- Outcome of one HTTP request/parse attempt in `rank`: either the parsed
`results` list of the response body (`data.get("results", [])`, so a body
without a `results` key is `success []`), or any exception raised during
the request/parse sequence. -/
inductive RerankOutcome where
  | success (results : List RerankEntry)
  | failure
deriving DecidableEq, Repr

/-- Models `HttpRerankerClient.rank` (lines 24-94 of `reranker.py`).  The
`attempts` oracle gives the outcome each successive HTTP attempt would
produce; the code performs exactly one attempt, so only `attempts 0` is
ever consulted.  An empty passage list short-circuits before any request.
On a successful attempt the reconciled pairs are stable-sorted by score
descending; on any exception the fallback pairs every passage with `0.0`. -/
def rank (passages : List String) (attempts : Nat → RerankOutcome) : List (String × ℚ) :=
  if passages.isEmpty then []
  else
    match attempts 0 with
    | RerankOutcome.success results =>
        List.mergeSort (reconcile passages results) scoreDescLE
    | RerankOutcome.failure => passages.map (fun p => (p, 0))

/-- Follows the words of claim C1 and spec section 4.3 (NOT the source):
on a failed attempt the adapter retries up to 2 additional times, and only
after exhausting all three attempts degrades to the lenient all-zero
fallback.  Used solely to compare the claimed behaviour with `rank`. -/
def rankClaimLenientRetry (passages : List String) (attempts : Nat → RerankOutcome) :
    List (String × ℚ) :=
  if passages.isEmpty then []
  else
    match attempts 0 with
    | RerankOutcome.success results =>
        List.mergeSort (reconcile passages results) scoreDescLE
    | RerankOutcome.failure =>
      match attempts 1 with
      | RerankOutcome.success results =>
          List.mergeSort (reconcile passages results) scoreDescLE
      | RerankOutcome.failure =>
        match attempts 2 with
        | RerankOutcome.success results =>
            List.mergeSort (reconcile passages results) scoreDescLE
        | RerankOutcome.failure => passages.map (fun p => (p, 0))

/-- Attempt oracle whose first attempt raises and whose second attempt
would succeed with a single entry scoring passage 0 at 1. -/
def attemptsFailThenSucceed : Nat → RerankOutcome
  | 0 => RerankOutcome.failure
  | _ + 1 => RerankOutcome.success [⟨some 0, some (ScoreValue.num 1)⟩]

/-- True when a response entry has an index within `[0, passage_count)`,
the guard of line 74 of `reranker.py`. -/
def entryInBounds (passages : List String) (e : RerankEntry) : Bool :=
  match e.index with
  | some idx => decide (0 ≤ idx ∧ idx < (passages.length : Int))
  | none => false

theorem reconcile_nil (results : List RerankEntry) : reconcile [] results = [] := by
  induction results with
  | nil => rfl
  | cons e rest ih =>
    obtain ⟨oi, sc⟩ := e
    cases oi with
    | none => simpa [reconcile] using ih
    | some idx =>
      rw [reconcile, dif_neg (by rintro ⟨h1, h2⟩; simp at h2; omega)]
      exact ih

theorem rank_success_eq (passages : List String) (results : List RerankEntry) :
    rank passages (fun _ => RerankOutcome.success results) =
      List.mergeSort (reconcile passages results) scoreDescLE := by
  cases passages with
  | nil => simp [rank, reconcile_nil]
  | cons p ps => rfl

theorem reconcile_length (passages : List String) (results : List RerankEntry) :
    (reconcile passages results).length = results.countP (entryInBounds passages) := by
  induction results with
  | nil => rfl
  | cons e rest ih =>
    obtain ⟨oi, sc⟩ := e
    cases oi with
    | none => simp [reconcile, List.countP_cons, entryInBounds, ih]
    | some idx =>
      by_cases hb : 0 ≤ idx ∧ idx < (passages.length : Int)
      · rw [reconcile, dif_pos hb]
        simp [List.countP_cons, entryInBounds, hb, ih]
      · rw [reconcile, dif_neg hb]
        simp [List.countP_cons, entryInBounds, hb, ih]

theorem reconcile_mem {passages : List String} {results : List RerankEntry}
    {pr : String × ℚ} (hmem : pr ∈ reconcile passages results) :
    ∃ e ∈ results, ∃ idx, e.index = some idx ∧
      ∃ hlt : idx.toNat < passages.length,
        pr = (passages.get ⟨idx.toNat, hlt⟩, floatCoerce e.relevance_score) := by
  induction results with
  | nil => simp [reconcile] at hmem
  | cons e rest ih =>
    obtain ⟨oi, sc⟩ := e
    cases oi with
    | none =>
      rw [reconcile] at hmem
      obtain ⟨e', he', rest'⟩ := ih hmem
      exact ⟨e', List.mem_cons_of_mem _ he', rest'⟩
    | some idx =>
      by_cases hb : 0 ≤ idx ∧ idx < (passages.length : Int)
      · rw [reconcile, dif_pos hb] at hmem
        rcases List.mem_cons.mp hmem with heq | htail
        · exact ⟨⟨some idx, sc⟩, List.mem_cons_self _ _, idx, rfl, by omega, heq⟩
        · obtain ⟨e', he', rest'⟩ := ih htail
          exact ⟨e', List.mem_cons_of_mem _ he', rest'⟩
      · rw [reconcile, dif_neg hb] at hmem
        obtain ⟨e', he', rest'⟩ := ih hmem
        exact ⟨e', List.mem_cons_of_mem _ he', rest'⟩

theorem scoreDescLE_trans (a b c : String × ℚ) :
    scoreDescLE a b → scoreDescLE b c → scoreDescLE a c := by
  simp only [scoreDescLE, decide_eq_true_eq]
  exact fun h1 h2 => le_trans h2 h1

theorem scoreDescLE_total (a b : String × ℚ) : scoreDescLE a b || scoreDescLE b a := by
  simp only [scoreDescLE, Bool.or_eq_true, decide_eq_true_eq]
  exact le_total b.2 a.2

/-- C1 counterexample: at passages `["a"]` with an attempt oracle whose
first request attempt raises and whose second would succeed, the code
returns the all-zero fallback immediately, whereas the claimed
retry-up-to-2-more-times behaviour would return the successful reranking;
hence `rank` does not implement the retry policy the claim states. -/
theorem C1_counterexample :
    rank ["a"] attemptsFailThenSucceed = [("a", 0)] ∧
    rankClaimLenientRetry ["a"] attemptsFailThenSucceed = [("a", 1)] ∧
    rank ["a"] attemptsFailThenSucceed ≠
      rankClaimLenientRetry ["a"] attemptsFailThenSucceed := by
  have h1 : rank ["a"] attemptsFailThenSucceed = [("a", 0)] := by
    simp [rank, attemptsFailThenSucceed]
  have h2 : rankClaimLenientRetry ["a"] attemptsFailThenSucceed = [("a", 1)] := by
    rw [rankClaimLenientRetry]
    simp only [attemptsFailThenSucceed, List.isEmpty_cons, Bool.false_eq_true,
      if_false]
    rw [reconcile, dif_pos (by norm_num)]
    simp [reconcile, floatCoerce]
  refine ⟨h1, h2, ?_⟩
  rw [h1, h2]
  simp

/-- C1 amended: on any exception during the single request/parse attempt,
`rank` does not retry at all; it immediately degrades to pairing every
submitted passage with score `0.0`, and its result never depends on what
later attempts would have produced (only `attempts 0` is consulted). -/
theorem C1_amended_no_retry_lenient_fallback (passages : List String)
    (a1 a2 : Nat → RerankOutcome) (hfail : a1 0 = RerankOutcome.failure)
    (hsame : a1 0 = a2 0) :
    rank passages a1 = passages.map (fun p => (p, 0)) ∧
    rank passages a1 = rank passages a2 := by
  cases passages with
  | nil => simp [rank]
  | cons p ps =>
    constructor
    · simp [rank, hfail]
    · simp [rank, ← hsame]

/-- C1 amended witness at a concrete failing oracle. -/
theorem C1_amended_witness :
    rank ["a"] attemptsFailThenSucceed =
      (["a"] : List String).map (fun p => (p, 0)) ∧
    rank ["a"] attemptsFailThenSucceed =
      rank ["a"] (fun _ => RerankOutcome.failure) :=
  C1_amended_no_retry_lenient_fallback ["a"] attemptsFailThenSucceed
    (fun _ => RerankOutcome.failure) rfl rfl

/-- Response entries for the end-to-end example of claim C8: the endpoint
answers with index 1 scored `0.2` first and index 0 scored `0.9` second. -/
def parisResults : List RerankEntry :=
  [⟨some 1, some (ScoreValue.num (2/10))⟩, ⟨some 0, some (ScoreValue.num (9/10))⟩]

/-- C8: for every successfully reconciled rerank response the returned
list is sorted by score descending; every tie block (a sublist of the
reconciled pairs whose scores are all equal) keeps its relative response
order in the output (stability of Python list.sort); and the concrete
Paris/Berlin example from the spec evaluates as claimed. -/
theorem C8_sorted_desc_stable_ties (passages : List String)
    (results : List RerankEntry) (c : List (String × ℚ))
    (hsub : c.Sublist (reconcile passages results))
    (hties : c.Pairwise (fun a b => a.2 = b.2)) :
    (rank passages (fun _ => RerankOutcome.success results)).Pairwise
        (fun a b => b.2 ≤ a.2) ∧
    c.Sublist (rank passages (fun _ => RerankOutcome.success results)) ∧
    rank ["Paris is the capital.", "Berlin is in Germany."]
        (fun _ => RerankOutcome.success parisResults) =
      [("Paris is the capital.", 9/10), ("Berlin is in Germany.", 2/10)] := by
  rw [rank_success_eq passages results]
  refine ⟨?_, ?_, ?_⟩
  · exact (List.sorted_mergeSort scoreDescLE_trans scoreDescLE_total
      (reconcile passages results)).imp
        (fun h => by simpa [scoreDescLE] using h)
  · exact List.sublist_mergeSort scoreDescLE_trans scoreDescLE_total
      (hties.imp (fun h => by simp [scoreDescLE, h])) hsub
  · rw [rank_success_eq, parisResults]
    rw [reconcile, dif_pos (by norm_num)]
    rw [reconcile, dif_pos (by norm_num)]
    rw [reconcile]
    simp [List.mergeSort, List.splitInTwo, List.splitAt, List.splitAt.go,
      List.merge, floatCoerce, scoreDescLE]
    norm_num

/-- Tied response entries used to witness the stability part of C8. -/
def tieResults : List RerankEntry :=
  [⟨some 0, some (ScoreValue.num 5)⟩, ⟨some 1, some (ScoreValue.num 5)⟩]

/-- C8 witness at a concrete two-passage response with equal scores. -/
theorem C8_witness :
    (rank ["x", "y"] (fun _ => RerankOutcome.success tieResults)).Pairwise
        (fun a b => b.2 ≤ a.2) ∧
    List.Sublist [("x", (5:ℚ)), ("y", (5:ℚ))]
      (rank ["x", "y"] (fun _ => RerankOutcome.success tieResults)) ∧
    rank ["Paris is the capital.", "Berlin is in Germany."]
        (fun _ => RerankOutcome.success parisResults) =
      [("Paris is the capital.", 9/10), ("Berlin is in Germany.", 2/10)] :=
  C8_sorted_desc_stable_ties ["x", "y"] tieResults [("x", 5), ("y", 5)]
    (by rw [tieResults, reconcile, dif_pos (by norm_num), reconcile,
          dif_pos (by norm_num), reconcile]
        simp [floatCoerce])
    (by simp)

/-- Malformed response reusing index 0 three times: every entry is in
bounds, so reconciliation emits three pairs for a single passage. -/
def dupIndexResults : List RerankEntry :=
  [⟨some 0, some (ScoreValue.num 3)⟩, ⟨some 0, some (ScoreValue.num 2)⟩,
   ⟨some 0, some (ScoreValue.num 1)⟩]

/-- C9 counterexample: a response whose entries repeat an in-bounds index
produces one reconciled pair per entry, so the returned list is longer
than the submitted passage list, refuting the claimed bound
`result length ≤ passage count`. -/
theorem C9_counterexample :
    rank ["a"] (fun _ => RerankOutcome.success dupIndexResults) =
      [("a", 3), ("a", 2), ("a", 1)] ∧
    ¬ ((rank ["a"] (fun _ => RerankOutcome.success dupIndexResults)).length ≤
        (["a"] : List String).length) := by
  have hrec : reconcile ["a"] dupIndexResults = [("a", 3), ("a", 2), ("a", 1)] := by
    rw [dupIndexResults, reconcile, dif_pos (by norm_num), reconcile,
      dif_pos (by norm_num), reconcile, dif_pos (by norm_num), reconcile]
    simp [floatCoerce]
  have h : rank ["a"] (fun _ => RerankOutcome.success dupIndexResults) =
      [("a", 3), ("a", 2), ("a", 1)] := by
    rw [rank_success_eq, hrec]
    simp [List.mergeSort, List.splitInTwo, List.splitAt, List.splitAt.go,
      List.merge, scoreDescLE]
    norm_num [List.merge, scoreDescLE]
  exact ⟨h, by rw [h]; simp⟩

/-- C9 amended: reconciliation is total (never crashes), its length equals
the number of in-bounds response entries — hence never exceeds the
response entry count and is never padded up to the passage count — every
returned pair is the original passage at an in-bounds entry index paired
with the float-coerced score (missing or non-numeric scores becoming
`0.0`), and an entry with a missing or out-of-range index contributes
nothing.  The passage-count bound of the original claim holds only when
in-bounds indices are not repeated (refuted above). -/
theorem C9_amended_reconciliation_safety (passages : List String)
    (results : List RerankEntry) :
    (rank passages (fun _ => RerankOutcome.success results)).length =
      results.countP (entryInBounds passages) ∧
    (rank passages (fun _ => RerankOutcome.success results)).length ≤
      results.length ∧
    (∀ pr ∈ rank passages (fun _ => RerankOutcome.success results),
      ∃ e ∈ results, ∃ idx, e.index = some idx ∧
        ∃ hlt : idx.toNat < passages.length,
          pr = (passages.get ⟨idx.toNat, hlt⟩, floatCoerce e.relevance_score)) ∧
    (∀ e rest, entryInBounds passages e = false →
      reconcile passages (e :: rest) = reconcile passages rest) ∧
    floatCoerce none = 0 ∧ floatCoerce (some ScoreValue.nonNumeric) = 0 := by
  rw [rank_success_eq passages results]
  refine ⟨?_, ?_, ?_, ?_, rfl, rfl⟩
  · rw [List.length_mergeSort]
    exact reconcile_length passages results
  · rw [List.length_mergeSort, reconcile_length]
    exact List.countP_le_length _
  · intro pr hpr
    exact reconcile_mem (List.mem_mergeSort.mp hpr)
  · intro e rest hfalse
    obtain ⟨oi, sc⟩ := e
    cases oi with
    | none => rw [reconcile]
    | some idx =>
      rw [reconcile, dif_neg]
      simpa [entryInBounds] using hfalse

/-- C9 amended witness at the duplicate-index response above. -/
theorem C9_amended_witness :
    (rank ["a"] (fun _ => RerankOutcome.success dupIndexResults)).length =
      dupIndexResults.countP (entryInBounds ["a"]) ∧
    (rank ["a"] (fun _ => RerankOutcome.success dupIndexResults)).length ≤
      dupIndexResults.length ∧
    (∀ pr ∈ rank ["a"] (fun _ => RerankOutcome.success dupIndexResults),
      ∃ e ∈ dupIndexResults, ∃ idx, e.index = some idx ∧
        ∃ hlt : idx.toNat < (["a"] : List String).length,
          pr = ((["a"] : List String).get ⟨idx.toNat, hlt⟩,
            floatCoerce e.relevance_score)) ∧
    (∀ e rest, entryInBounds ["a"] e = false →
      reconcile ["a"] (e :: rest) = reconcile ["a"] rest) ∧
    floatCoerce none = 0 ∧ floatCoerce (some ScoreValue.nonNumeric) = 0 :=
  C9_amended_reconciliation_safety ["a"] dupIndexResults

/-! ### LLM client data model (`custom_llm_clients.py`)

JSON values returned by the provider are modelled exactly as parsed data;
Python dicts are association lists with unique keys in insertion order.
The external `json.loads` is abstracted as a `parseJson` parameter mapping
a raw string to the parsed top-level object (`none` models a raised
`json.JSONDecodeError`); the extractor only ever stores object results, so
the parameter is restricted to objects. -/

inductive Json where
  | str (s : String)
  | num (n : Int)
  | bool (b : Bool)
  | null
  | arr (elems : List Json)
  | obj (fields : List (String × Json))

/-- Models Python dict assignment `d[k] = v`: an existing key keeps its
position and gets the new value, a new key is appended at the end
(insertion order, as for `result["__input_tokens"] = input_tokens`). -/
def dictSet : List (String × Json) → String → Json → List (String × Json)
  | [], k, v => [(k, v)]
  | (k0, v0) :: rest, k, v =>
    if k0 = k then (k, v) :: rest else (k0, v0) :: dictSet rest k v

/-- Models `d.pop(k, None)`: removes the entry for `k` when present.  Dict
keys are unique, so filtering is equivalent to removing the one entry. -/
def dictPop (d : List (String × Json)) (k : String) : List (String × Json) :=
  d.filter (fun kv => kv.1 != k)

/-- Provider-agnostic chat message (graphiti `Message`): role and content. -/
structure Message where
  role : String
  content : String
deriving DecidableEq, Repr

/-- Models `_convert_messages_to_openai_format` (lines 72-85 of
`custom_llm_clients.py`).  Every message content is first passed through
the parent `_clean_input` (an external collaborator, abstracted as
`cleanInput`); only messages whose role is user, system or assistant are
emitted, in order, with the wire shape sharing the role and cleaned
content; any other role falls through the `if`/`elif` chain and is
silently skipped. -/
def convert_messages_to_openai_format (cleanInput : String → String) :
    List Message → List Message
  | [] => []
  | m :: rest =>
    let cleaned := cleanInput m.content
    if m.role = "user" then
      ⟨"user", cleaned⟩ :: convert_messages_to_openai_format cleanInput rest
    else if m.role = "system" then
      ⟨"system", cleaned⟩ :: convert_messages_to_openai_format cleanInput rest
    else if m.role = "assistant" then
      ⟨"assistant", cleaned⟩ :: convert_messages_to_openai_format cleanInput rest
    else
      convert_messages_to_openai_format cleanInput rest

/-- Substring containment on character lists, modelling the Python
operator `needle in hay` on strings. -/
def listContainsSub (needle hay : List Char) : Bool :=
  hay.tails.any (fun t => needle.isPrefixOf t)

/-- Models `'reasoner' in model` style substring tests. -/
def strContainsSub (hay needle : String) : Bool :=
  listContainsSub needle.toList hay.toList

def DEFAULT_MODEL : String := "deepseek-chat"

def MAX_RETRIES : Nat := 2

/-- Models line 109: `is_reasoner = 'reasoner' in model`. -/
def is_reasoner (model : String) : Bool := strContainsSub model "reasoner"

/-- Models lines 111-117 of `_call_api`: the per-variant hard ceiling
(32768 for reasoner models, 8192 otherwise) applied as a clamp. -/
def clamp_max_tokens (model : String) (max_tokens : Nat) : Nat :=
  let model_max := if is_reasoner model then 32768 else 8192
  if max_tokens > model_max then model_max else max_tokens

/-- One entry of `result_message.tool_calls`: only the raw argument
payload `tool_call.function.arguments` is consumed by the extractor. -/
structure ToolCall where
  arguments : String
deriving DecidableEq, Repr

/-- The `response.usage` object: prompt and completion token counts. -/
structure Usage where
  prompt_tokens : Int
  completion_tokens : Int
deriving DecidableEq, Repr

/-- The chosen completion message `response.choices[0].message`: an
optional tool-call list (Python `None` and `[]` are both falsy, so both
are modelled as the empty list) and optional text content. -/
structure ResultMessage where
  tool_calls : List ToolCall
  content : Option String
deriving DecidableEq, Repr

/-- A raw completion as consumed by `_call_api` lines 157-210. -/
structure ApiResponse where
  message : ResultMessage
  usage : Option Usage
deriving DecidableEq, Repr

/-- Models lines 160-164: token counts default to 0 without `usage`. -/
def usageInputTokens : Option Usage → Int
  | some u => u.prompt_tokens
  | none => 0

def usageOutputTokens : Option Usage → Int
  | some u => u.completion_tokens
  | none => 0

/-- The opening curly brace character, written via its code point. -/
def lbrace : Char := Char.ofNat 123

/-- The closing curly brace character, written via its code point. -/
def rbrace : Char := Char.ofNat 125

/-- Helper for `pyFind`: first position of `c` at offset `i`, else `-1`. -/
def pyFindAux (c : Char) : List Char → Int → Int
  | [], _ => -1
  | x :: xs, i => if x = c then i else pyFindAux c xs (i + 1)

/-- Models Python `s.find(c)`: index of the first occurrence, `-1` if
absent. -/
def pyFind (s : String) (c : Char) : Int := pyFindAux c s.toList 0

/-- Models Python `s.rfind(c)`: index of the last occurrence, `-1` if
absent, computed from the first occurrence in the reversed character
list. -/
def pyRfind (s : String) (c : Char) : Int :=
  let r := pyFindAux c s.toList.reverse 0
  if r < 0 then -1 else (s.toList.length : Int) - 1 - r

/-- Models the Python slice `s[a:b]` for `0 ≤ a ≤ b`. -/
def pySlice (s : String) (a b : Nat) : String :=
  String.mk ((s.toList.drop a).take (b - a))

/-- Models the Python truncation `s[:n]`. -/
def pyTake (s : String) (n : Nat) : String := String.mk (s.toList.take n)

/-- Models the emptiness test `not content.strip()`: true exactly when
every character is whitespace (in particular for the empty string). -/
def pyStripIsEmpty (s : String) : Bool := s.toList.all Char.isWhitespace

/-- Message of the `ValueError` raised at lines 184-187 when a schema was
requested but the completion has neither tool calls nor content. -/
def emptySchemaMessage (name : String) : String :=
  "Empty response from DeepSeek (no tool_calls and no content). " ++
    "Expected structured output for " ++ name ++ "."

/-- Message of the `ValueError` raised at line 199 when the content has no
brace-delimited candidate substring. -/
def couldNotParseMessage (content : String) : String :=
  "Could not parse JSON from response: " ++ content

/-- Message of the `ValueError` raised at lines 203-206 when a schema was
requested but the parsed object has no real data. -/
def emptyJsonMessage (name content : String) : String :=
  "DeepSeek returned empty JSON for " ++ name ++ ". Content: " ++
    pyTake content 200

/-- Models Python `s.startswith(pre)`. -/
def pyStartsWith (s pre : String) : Bool := pre.toList.isPrefixOf s.toList

/-- Models the guard expression of line 202,
`any(k for k in result if not k.startswith("__"))`: true when some key
not starting with the bookkeeping prefix is a non-empty (truthy) string.
Note that Python tests the truthiness of the key itself, not of the
value stored under it. -/
def resultHasData (result : List (String × Json)) : Bool :=
  result.any (fun kv => !(pyStartsWith kv.1 "__") && kv.1 != "")

/-- Exceptions `_call_api` itself raises while interpreting a completion:
`jsonDecode doc` models a `json.JSONDecodeError` raised while parsing the
string `doc` (its `doc` attribute), `valueError msg` a `ValueError` with
message `msg`.  Both are application-level errors for the retry loop. -/
inductive ApiError where
  | jsonDecode (doc : String)
  | valueError (msg : String)
deriving DecidableEq, Repr

/-- Models lines 208-209 (and 175-176): attach the token counters to the
parsed object before returning it. -/
def attachTokens (result : List (String × Json)) (input_tokens output_tokens : Int) :
    List (String × Json) :=
  dictSet (dictSet result "__input_tokens" (Json.num input_tokens))
    "__output_tokens" (Json.num output_tokens)

/-- Models the completion-interpretation part of `DeepSeekClient._call_api`
(lines 157-210 of `custom_llm_clients.py`), given the raw completion of a
successful HTTP exchange.  `parseJson` abstracts `json.loads`;
`response_model` is `some name` when a ResponseSchema named `name` was
requested.  Priority order: tool-call arguments, then direct content JSON,
then the brace-delimited substring of the content; empty content is an
error exactly when a schema was requested; a schema-requested object
parsed from content must have a truthy non-bookkeeping key. -/
def call_api (parseJson : String → Option (List (String × Json)))
    (response_model : Option String) (response : ApiResponse) :
    Except ApiError (List (String × Json)) :=
  let input_tokens := usageInputTokens response.usage
  let output_tokens := usageOutputTokens response.usage
  match response.message.tool_calls with
  | tool_call :: _ =>
    (match parseJson tool_call.arguments with
     | none => Except.error (ApiError.jsonDecode tool_call.arguments)
     | some result => Except.ok (attachTokens result input_tokens output_tokens))
  | [] =>
    let content := response.message.content.getD ""
    if pyStripIsEmpty content then
      match response_model with
      | some name => Except.error (ApiError.valueError (emptySchemaMessage name))
      | none =>
        Except.ok [("__input_tokens", Json.num input_tokens),
          ("__output_tokens", Json.num output_tokens)]
    else
      match parseJson content with
      | some result =>
        if response_model.isSome && !resultHasData result then
          Except.error (ApiError.valueError
            (emptyJsonMessage (response_model.getD "") content))
        else
          Except.ok (attachTokens result input_tokens output_tokens)
      | none =>
        let start := pyFind content lbrace
        let stop := pyRfind content rbrace + 1
        if start ≥ 0 ∧ stop > start then
          match parseJson (pySlice content start.toNat stop.toNat) with
          | some result =>
            if response_model.isSome && !resultHasData result then
              Except.error (ApiError.valueError
                (emptyJsonMessage (response_model.getD "") content))
            else
              Except.ok (attachTokens result input_tokens output_tokens)
          | none =>
            Except.error (ApiError.jsonDecode (pySlice content start.toNat stop.toNat))
        else
          Except.error (ApiError.valueError (couldNotParseMessage content))

/-- Application-level error as observed by the retry loop: the Python
exception class name `e.__class__.__name__` and the detail text `str(e)`,
exactly the two pieces interpolated into the corrective message. -/
structure AppError where
  className : String
  details : String
deriving DecidableEq, Repr

/-- Outcome of one `_call_api` invocation as classified by the `except`
clauses of `_generate_response` (lines 247-256): a returned dict, a
`RateLimitError`, one of the three transport errors
(`APITimeoutError`/`APIConnectionError`/`InternalServerError`), or any
other exception. -/
inductive CallOutcome where
  | success (result : List (String × Json))
  | rateLimit
  | transport
  | appError (e : AppError)

/-- Result of `_generate_response`: a returned dict (token keys already
stripped), an immediately re-raised rate-limit or transport error, or the
application-level error re-raised after the local retries. -/
inductive GenResult where
  | ok (result : List (String × Json))
  | rateLimited
  | transportError
  | appFailed (e : AppError)

/-- Models lines 242-244: `response.pop` of the two internal token keys
before returning.  Dict keys are unique, so filtering both keys out is
exactly the two pops. -/
def strip_token_keys (r : List (String × Json)) : List (String × Json) :=
  dictPop (dictPop r "__input_tokens") "__output_tokens"

/-- Models lines 263-270: the user-role corrective message appended to the
conversation after a failed attempt. -/
def error_context_message (e : AppError) : Message :=
  ⟨"user",
    "The previous response attempt was invalid. Error type: " ++ e.className ++
      ". Error details: " ++ e.details ++
      ". Please try again with a valid response, ensuring the output matches " ++
      "the expected format and constraints."⟩

/-- Outcome the retry loop observes when one attempt raises a `ValueError`
with message `msg` (class name `ValueError`, `str` equal to `msg`). -/
def valueErrorOutcome (msg : String) : CallOutcome :=
  CallOutcome.appError ⟨"ValueError", msg⟩

/-- Models the `while retry_count <= MAX_RETRIES` loop of
`_generate_response` (lines 233-278 of `custom_llm_clients.py`).
`remaining` stands for `MAX_RETRIES + 1 - retry_count`, the number of
iterations the while-condition still allows, so the `0` case is the fall
through to line 278, `raise last_error or Exception(...)`.  The oracle
`attempts retry_count` gives the outcome of the `_call_api` call of that
attempt.  Besides the result, the trace of message lists passed into each
successive `_call_api` invocation is returned, so that theorems can speak
about how the conversation evolves across retries. -/
def generate_loop (attempts : Nat → CallOutcome) :
    Nat → Nat → List Message → Option AppError → GenResult × List (List Message)
  | 0, _, _, last_error =>
    (GenResult.appFailed (last_error.getD
      ⟨"Exception", "Max retries exceeded with no specific error"⟩), [])
  | remaining + 1, retry_count, messages, _ =>
    match attempts retry_count with
    | CallOutcome.success r => (GenResult.ok (strip_token_keys r), [messages])
    | CallOutcome.rateLimit => (GenResult.rateLimited, [messages])
    | CallOutcome.transport => (GenResult.transportError, [messages])
    | CallOutcome.appError e =>
      if MAX_RETRIES ≤ retry_count then (GenResult.appFailed e, [messages])
      else
        let rest := generate_loop attempts remaining (retry_count + 1)
          (messages ++ [error_context_message e]) (some e)
        (rest.1, messages :: rest.2)

/-- Models `_generate_response`: the loop entered with `retry_count = 0`,
`last_error = None` and the caller-supplied message list. -/
def generate_response (attempts : Nat → CallOutcome) (messages : List Message) :
    GenResult × List (List Message) :=
  generate_loop attempts (MAX_RETRIES + 1) 0 messages none

/-- C10: the message adapter emits exactly one wire message, in order, for
each input message whose role is user, system or assistant (role kept,
content passed through the cleaning collaborator), and silently omits
every message with any other role, so the wire sequence is the filtered
projection of the input and never longer than it. -/
theorem C10_message_adapter_filters_roles (cleanInput : String → String)
    (messages : List Message) :
    convert_messages_to_openai_format cleanInput messages =
      (messages.filter (fun m =>
        m.role == "user" || m.role == "system" || m.role == "assistant")).map
        (fun m => ⟨m.role, cleanInput m.content⟩) ∧
    (convert_messages_to_openai_format cleanInput messages).length ≤
      messages.length := by
  have key : ∀ ms : List Message,
      convert_messages_to_openai_format cleanInput ms =
        (ms.filter (fun m =>
          m.role == "user" || m.role == "system" || m.role == "assistant")).map
          (fun m => ⟨m.role, cleanInput m.content⟩) := by
    intro ms
    induction ms with
    | nil => rfl
    | cons m rest ih =>
      by_cases h1 : m.role = "user"
      · simp [convert_messages_to_openai_format, h1, ih]
      · by_cases h2 : m.role = "system"
        · simp [convert_messages_to_openai_format, h1, h2, ih]
        · by_cases h3 : m.role = "assistant"
          · simp [convert_messages_to_openai_format, h1, h2, h3, ih]
          · simp [convert_messages_to_openai_format, h1, h2, h3, ih]
  refine ⟨key messages, ?_⟩
  rw [key messages, List.length_map]
  exact List.length_filter_le _ _

/-- C7: the requested max-output-token budget is clamped, never rejected:
the effective value is the minimum of the request and the per-variant hard
ceiling (32768 when the model identifier contains the reasoner substring,
8192 otherwise); in particular 50000 against the standard chat model is
clamped to 8192. -/
theorem C7_token_budget_clamp (model : String) (mt : Nat) :
    clamp_max_tokens model mt =
      min mt (if is_reasoner model then 32768 else 8192) ∧
    is_reasoner "deepseek-chat" = false ∧
    is_reasoner "deepseek-reasoner" = true ∧
    clamp_max_tokens "deepseek-chat" 50000 = 8192 := by
  refine ⟨?_, by decide, by decide, by decide⟩
  unfold clamp_max_tokens
  cases h : is_reasoner model <;> simp [h] <;> split <;> omega

/-- C3: the retry loop classifies failures exactly as claimed: rate-limit
and transport errors abort on the spot after a single attempt, any other
error is retried under the fixed ceiling of `MAX_RETRIES = 2` retries
(three total attempts, each later attempt seeing one more corrective
message), a success after an application error is returned with the
bookkeeping keys stripped, and exhausting the attempts re-raises the last
observed error. -/
theorem C3_retry_classification (msgs : List Message)
    (aRL aTR aAE aMix : Nat → CallOutcome) (es : Nat → AppError)
    (e : AppError) (r : List (String × Json))
    (h1 : aRL 0 = CallOutcome.rateLimit)
    (h2 : aTR 0 = CallOutcome.transport)
    (h3 : ∀ n, aAE n = CallOutcome.appError (es n))
    (h4 : aMix 0 = CallOutcome.appError e)
    (h5 : aMix 1 = CallOutcome.success r) :
    MAX_RETRIES = 2 ∧
    generate_response aRL msgs = (GenResult.rateLimited, [msgs]) ∧
    generate_response aTR msgs = (GenResult.transportError, [msgs]) ∧
    generate_response aAE msgs =
      (GenResult.appFailed (es 2),
        [msgs, msgs ++ [error_context_message (es 0)],
         msgs ++ [error_context_message (es 0)] ++ [error_context_message (es 1)]]) ∧
    generate_response aMix msgs =
      (GenResult.ok (strip_token_keys r),
        [msgs, msgs ++ [error_context_message e]]) := by
  refine ⟨rfl, ?_, ?_, ?_, ?_⟩
  · simp [generate_response, generate_loop, h1]
  · simp [generate_response, generate_loop, h2]
  · simp [generate_response, generate_loop, h3 0, h3 1, h3 2, MAX_RETRIES]
  · simp [generate_response, generate_loop, h4, h5, MAX_RETRIES]

/-- Application error reused by the concrete oracles below. -/
def sampleError : AppError := ⟨"ValueError", "boom"⟩

/-- A parsed result with one schema field, for the concrete oracles. -/
def sampleOk : List (String × Json) := [("name", Json.str "x")]

/-- Oracle raising an application error once, then succeeding. -/
def attemptsAppThenOk : Nat → CallOutcome
  | 0 => CallOutcome.appError sampleError
  | _ + 1 => CallOutcome.success sampleOk

/-- C3 witness at concrete oracles and the empty conversation. -/
theorem C3_witness :
    MAX_RETRIES = 2 ∧
    generate_response (fun _ => CallOutcome.rateLimit) [] =
      (GenResult.rateLimited, [[]]) ∧
    generate_response (fun _ => CallOutcome.transport) [] =
      (GenResult.transportError, [[]]) ∧
    generate_response (fun _ => CallOutcome.appError sampleError) [] =
      (GenResult.appFailed sampleError,
        [[], [] ++ [error_context_message sampleError],
         [] ++ [error_context_message sampleError] ++
           [error_context_message sampleError]]) ∧
    generate_response attemptsAppThenOk [] =
      (GenResult.ok (strip_token_keys sampleOk),
        [[], [] ++ [error_context_message sampleError]]) :=
  C3_retry_classification [] (fun _ => CallOutcome.rateLimit)
    (fun _ => CallOutcome.transport) (fun _ => CallOutcome.appError sampleError)
    attemptsAppThenOk (fun _ => sampleError) sampleError sampleOk
    rfl rfl (fun _ => rfl) rfl rfl

theorem generate_loop_trace_head (attempts : Nat → CallOutcome)
    (remaining retry_count : Nat) (messages : List Message)
    (last_error : Option AppError)
    (h : 0 < (generate_loop attempts remaining retry_count messages last_error).2.length) :
    (generate_loop attempts remaining retry_count messages last_error).2[0]? =
      some messages := by
  cases remaining with
  | zero => simp [generate_loop] at h
  | succ k =>
    cases ho : attempts retry_count with
    | success r => simp [generate_loop, ho]
    | rateLimit => simp [generate_loop, ho]
    | transport => simp [generate_loop, ho]
    | appError e =>
      by_cases hc : MAX_RETRIES ≤ retry_count
      · simp [generate_loop, ho, hc]
      · simp [generate_loop, ho, hc]

theorem generate_loop_trace_step (attempts : Nat → CallOutcome) :
    ∀ (remaining retry_count : Nat) (messages : List Message)
      (last_error : Option AppError) (i : Nat),
      i + 1 < (generate_loop attempts remaining retry_count messages last_error).2.length →
      ∃ e : AppError,
        (generate_loop attempts remaining retry_count messages last_error).2[i + 1]? =
          some
            (((generate_loop attempts remaining retry_count messages last_error).2[i]?.getD [])
              ++ [error_context_message e]) := by
  intro remaining
  induction remaining with
  | zero =>
    intro rc msgs le i h
    simp [generate_loop] at h
  | succ k ih =>
    intro rc msgs le i h
    cases ho : attempts rc with
    | success r => simp [generate_loop, ho] at h
    | rateLimit => simp [generate_loop, ho] at h
    | transport => simp [generate_loop, ho] at h
    | appError e =>
      by_cases hc : MAX_RETRIES ≤ rc
      · simp [generate_loop, ho, hc] at h
      · rw [generate_loop] at h ⊢
        simp only [ho, hc, if_false] at h ⊢
        cases i with
        | zero =>
          have hlen : 0 <
              (generate_loop attempts k (rc + 1) (msgs ++ [error_context_message e])
                (some e)).2.length := by
            simpa using Nat.lt_of_succ_lt_succ h
          refine ⟨e, ?_⟩
          simp [generate_loop_trace_head attempts k (rc + 1)
            (msgs ++ [error_context_message e]) (some e) hlen]
        | succ j =>
          have hj : j + 1 <
              (generate_loop attempts k (rc + 1) (msgs ++ [error_context_message e])
                (some e)).2.length := by
            simpa using Nat.lt_of_succ_lt_succ h
          obtain ⟨e2, he2⟩ := ih (rc + 1) (msgs ++ [error_context_message e]) (some e) j hj
          exact ⟨e2, by simpa using he2⟩

/-- C5: inside the local retry loop, the message list passed into attempt
`i + 1` is exactly the list passed into attempt `i` with one user-role
corrective message appended at the end; no prior message is removed,
truncated or reordered, and exactly one message is added per failed
attempt. -/
theorem C5_messages_grow_by_one_user_message (attempts : Nat → CallOutcome)
    (messages : List Message) (i : Nat)
    (h : i + 1 < (generate_response attempts messages).2.length) :
    ∃ e : AppError,
      (generate_response attempts messages).2[i + 1]? =
        some (((generate_response attempts messages).2[i]?.getD []) ++
          [error_context_message e]) ∧
      (error_context_message e).role = "user" := by
  obtain ⟨e, he⟩ :=
    generate_loop_trace_step attempts (MAX_RETRIES + 1) 0 messages none i h
  exact ⟨e, he, rfl⟩

/-- C5 witness at the always-failing oracle and empty conversation. -/
theorem C5_witness :
    ∃ e : AppError,
      (generate_response (fun _ => CallOutcome.appError sampleError) []).2[0 + 1]? =
        some (((generate_response (fun _ => CallOutcome.appError sampleError) []).2[0]?.getD [])
          ++ [error_context_message e]) ∧
      (error_context_message e).role = "user" :=
  C5_messages_grow_by_one_user_message (fun _ => CallOutcome.appError sampleError) [] 0
    (by simp [generate_response, generate_loop, MAX_RETRIES])

/-- C6: for a completion with no tool call and only-whitespace content:
with a requested schema the attempt raises the `ValueError` naming the
schema; without one the call returns the bare token counters, which the
retry loop strips to an empty result; and when the schema-naming failure
repeats, the loop appends one corrective message before each retry and
gives up after the configured ceiling, re-raising that error. -/
theorem C6_empty_content_policy
    (parse : String → Option (List (String × Json)))
    (response : ApiResponse) (name : String) (msgs : List Message)
    (hnt : response.message.tool_calls = [])
    (hws : pyStripIsEmpty (response.message.content.getD "") = true) :
    call_api parse (some name) response =
      Except.error (ApiError.valueError (emptySchemaMessage name)) ∧
    call_api parse none response =
      Except.ok [("__input_tokens", Json.num (usageInputTokens response.usage)),
        ("__output_tokens", Json.num (usageOutputTokens response.usage))] ∧
    strip_token_keys
        [("__input_tokens", Json.num (usageInputTokens response.usage)),
         ("__output_tokens", Json.num (usageOutputTokens response.usage))] = [] ∧
    generate_response (fun _ => valueErrorOutcome (emptySchemaMessage name)) msgs =
      (GenResult.appFailed ⟨"ValueError", emptySchemaMessage name⟩,
        [msgs,
         msgs ++ [error_context_message ⟨"ValueError", emptySchemaMessage name⟩],
         msgs ++ [error_context_message ⟨"ValueError", emptySchemaMessage name⟩] ++
           [error_context_message ⟨"ValueError", emptySchemaMessage name⟩]]) := by
  refine ⟨?_, ?_, ?_, ?_⟩
  · simp [call_api, hnt, hws]
  · simp [call_api, hnt, hws]
  · simp [strip_token_keys, dictPop]
  · simp [generate_response, generate_loop, valueErrorOutcome, MAX_RETRIES]

/-- Completion with no tool calls, `None` content and a usage block. -/
def emptyCompletion : ApiResponse := ⟨⟨[], none⟩, some ⟨7, 3⟩⟩

/-- C6 witness at a concrete empty completion. -/
theorem C6_witness :
    call_api (fun _ => none) (some "Entities") emptyCompletion =
      Except.error (ApiError.valueError (emptySchemaMessage "Entities")) ∧
    call_api (fun _ => none) none emptyCompletion =
      Except.ok [("__input_tokens", Json.num (usageInputTokens emptyCompletion.usage)),
        ("__output_tokens", Json.num (usageOutputTokens emptyCompletion.usage))] ∧
    strip_token_keys
        [("__input_tokens", Json.num (usageInputTokens emptyCompletion.usage)),
         ("__output_tokens", Json.num (usageOutputTokens emptyCompletion.usage))] = [] ∧
    generate_response (fun _ => valueErrorOutcome (emptySchemaMessage "Entities")) [] =
      (GenResult.appFailed ⟨"ValueError", emptySchemaMessage "Entities"⟩,
        [[],
         [] ++ [error_context_message ⟨"ValueError", emptySchemaMessage "Entities"⟩],
         [] ++ [error_context_message ⟨"ValueError", emptySchemaMessage "Entities"⟩] ++
           [error_context_message ⟨"ValueError", emptySchemaMessage "Entities"⟩]]) :=
  C6_empty_content_policy (fun _ => none) emptyCompletion "Entities" [] rfl rfl

/-- The content of the spec example: JSON wrapped in prose (braces written
via code-point escapes). -/
def sureContent : String := "Sure! \x7b\"name\": \"x\"\x7d done."

/-- The brace-delimited substring of `sureContent`. -/
def sureJson : String := "\x7b\"name\": \"x\"\x7d"

/-- C4: when content does not parse directly, the extractor parses the
substring between the first opening and last closing brace; with no such
pair the attempt fails with the `ValueError` naming the whole content;
when the substring parse fails too, the decode error for exactly that
substring propagates; and on the spec example the object with field
`name = x` is recovered, reaching the caller once the token counters are
stripped. -/
theorem C4_brace_substring_recovery
    (parse : String → Option (List (String × Json)))
    (rA rB rC : ApiResponse) (cA cB : String) (rm : Option String)
    (hA1 : rA.message.tool_calls = []) (hA2 : rA.message.content = some cA)
    (hA3 : pyStripIsEmpty cA = false) (hA4 : parse cA = none)
    (hA5 : ¬ (pyFind cA lbrace ≥ 0 ∧
      pyRfind cA rbrace + 1 > pyFind cA lbrace))
    (hB1 : rB.message.tool_calls = []) (hB2 : rB.message.content = some cB)
    (hB3 : pyStripIsEmpty cB = false) (hB4 : parse cB = none)
    (hB5 : pyFind cB lbrace ≥ 0 ∧ pyRfind cB rbrace + 1 > pyFind cB lbrace)
    (hB6 : parse (pySlice cB (pyFind cB lbrace).toNat
      (pyRfind cB rbrace + 1).toNat) = none)
    (hC1 : rC.message.tool_calls = []) (hC2 : rC.message.content = some sureContent)
    (hC3 : parse sureContent = none)
    (hC4 : parse sureJson = some [("name", Json.str "x")]) :
    call_api parse rm rA =
      Except.error (ApiError.valueError (couldNotParseMessage cA)) ∧
    call_api parse rm rB =
      Except.error (ApiError.jsonDecode (pySlice cB (pyFind cB lbrace).toNat
        (pyRfind cB rbrace + 1).toNat)) ∧
    call_api parse rm rC =
      Except.ok (attachTokens [("name", Json.str "x")]
        (usageInputTokens rC.usage) (usageOutputTokens rC.usage)) ∧
    strip_token_keys (attachTokens [("name", Json.str "x")]
        (usageInputTokens rC.usage) (usageOutputTokens rC.usage)) =
      [("name", Json.str "x")] := by
  refine ⟨?_, ?_, ?_, ?_⟩
  · simp [call_api, hA1, hA2, hA3, hA4, hA5]
  · simp [call_api, hB1, hB2, hB3, hB4, hB5, hB6]
  · have hws : pyStripIsEmpty sureContent = false := by decide
    have hfind : pyFind sureContent lbrace = 6 := by decide
    have hrfind : pyRfind sureContent rbrace = 18 := by decide
    have hslice : pySlice sureContent 6 19 = sureJson := by decide
    have hdata : resultHasData [("name", Json.str "x")] = true := by decide
    simp [call_api, hC1, hC2, hws, hC3, hfind, hrfind, hslice, hC4, hdata]
  · simp [strip_token_keys, attachTokens, dictSet, dictPop]

/-- Parser behaving like `json.loads` on the three strings the C4 witness
exercises: only the exact brace-delimited object parses. -/
def parseSure : String → Option (List (String × Json)) := fun s =>
  if s = sureJson then some [("name", Json.str "x")] else none

/-- Completion carrying the spec example content. -/
def sureCompletion : ApiResponse := ⟨⟨[], some sureContent⟩, some ⟨7, 3⟩⟩

/-- Completion with content lacking any brace pair. -/
def noBraceCompletion : ApiResponse := ⟨⟨[], some "no json here"⟩, none⟩

/-- Completion whose brace-delimited substring still fails to parse. -/
def badBraceCompletion : ApiResponse := ⟨⟨[], some "a\x7bb\x7d c"⟩, none⟩

/-- C4 witness at the three concrete completions above. -/
theorem C4_witness :
    call_api parseSure (some "Entities") noBraceCompletion =
      Except.error (ApiError.valueError (couldNotParseMessage "no json here")) ∧
    call_api parseSure (some "Entities") badBraceCompletion =
      Except.error (ApiError.jsonDecode
        (pySlice "a\x7bb\x7d c" (pyFind "a\x7bb\x7d c" lbrace).toNat
          (pyRfind "a\x7bb\x7d c" rbrace + 1).toNat)) ∧
    call_api parseSure (some "Entities") sureCompletion =
      Except.ok (attachTokens [("name", Json.str "x")]
        (usageInputTokens sureCompletion.usage)
        (usageOutputTokens sureCompletion.usage)) ∧
    strip_token_keys (attachTokens [("name", Json.str "x")]
        (usageInputTokens sureCompletion.usage)
        (usageOutputTokens sureCompletion.usage)) =
      [("name", Json.str "x")] :=
  C4_brace_substring_recovery parseSure noBraceCompletion badBraceCompletion
    sureCompletion "no json here" "a\x7bb\x7d c" (some "Entities")
    rfl rfl (by decide) rfl (by decide)
    rfl rfl (by decide) rfl (by decide) rfl
    rfl rfl rfl rfl

/-- Parser mapping the empty object literal to the empty dict, like
`json.loads` on the string holding only braces. -/
def parseEmptyObj : String → Option (List (String × Json)) := fun s =>
  if s = "\x7b\x7d" then some [] else none

/-- Completion answering the (schema-requested) call with a tool call
whose argument payload is the empty JSON object. -/
def emptyToolCompletion : ApiResponse := ⟨⟨[⟨"\x7b\x7d"⟩], none⟩, some ⟨3, 4⟩⟩

/-- C2 counterexample: a tool call whose arguments are the empty JSON
object is returned as a success even though a schema was requested and the
returned mapping holds nothing but the two bookkeeping keys — the
non-empty-result validation does not run on the tool-call path, refuting
the claimed invariant. -/
theorem C2_counterexample :
    call_api parseEmptyObj (some "Entities") emptyToolCompletion =
      Except.ok [("__input_tokens", Json.num 3), ("__output_tokens", Json.num 4)] ∧
    resultHasData [("__input_tokens", Json.num 3), ("__output_tokens", Json.num 4)] =
      false ∧
    (call_api parseEmptyObj (some "Entities") emptyToolCompletion).isOk = true :=
  ⟨rfl, rfl, rfl⟩

/-- C2 amended: with a schema requested, the non-empty-result validation
runs only on the content-JSON path, where it tests for at least one truthy
key outside the bookkeeping prefix (key presence, not value
non-emptiness): such a result is returned with the counters attached,
while an all-bookkeeping result raises the empty-JSON error; a result
extracted from a tool call is returned without this validation, whatever
its keys. -/
theorem C2_amended_validation_content_path_only
    (parse : String → Option (List (String × Json)))
    (rTool rEmptyC rDataC : ApiResponse) (name : String)
    (tc : ToolCall) (more : List ToolCall)
    (rT rE rD : List (String × Json)) (cE cD : String)
    (h1 : rTool.message.tool_calls = tc :: more)
    (h2 : parse tc.arguments = some rT)
    (h3 : rEmptyC.message.tool_calls = [])
    (h4 : rEmptyC.message.content = some cE)
    (h5 : pyStripIsEmpty cE = false)
    (h6 : parse cE = some rE)
    (h7 : resultHasData rE = false)
    (h8 : rDataC.message.tool_calls = [])
    (h9 : rDataC.message.content = some cD)
    (h10 : pyStripIsEmpty cD = false)
    (h11 : parse cD = some rD)
    (h12 : resultHasData rD = true) :
    call_api parse (some name) rTool =
      Except.ok (attachTokens rT (usageInputTokens rTool.usage)
        (usageOutputTokens rTool.usage)) ∧
    call_api parse (some name) rEmptyC =
      Except.error (ApiError.valueError (emptyJsonMessage name cE)) ∧
    call_api parse (some name) rDataC =
      Except.ok (attachTokens rD (usageInputTokens rDataC.usage)
        (usageOutputTokens rDataC.usage)) := by
  refine ⟨?_, ?_, ?_⟩
  · simp [call_api, h1, h2]
  · simp [call_api, h3, h4, h5, h6, h7]
  · simp [call_api, h8, h9, h10, h11, h12]

/-- Parser for the C2 witness: the empty object parses to the empty dict
and the object with an empty-string name field parses accordingly. -/
def parseForC2 : String → Option (List (String × Json)) := fun s =>
  if s = "\x7b\x7d" then some []
  else if s = "\x7b\"name\": \"\"\x7d" then some [("name", Json.str "")]
  else none

/-- Completion whose content is the empty JSON object. -/
def emptyObjContentCompletion : ApiResponse := ⟨⟨[], some "\x7b\x7d"⟩, none⟩

/-- Completion whose content is an object with one (empty-valued) field. -/
def namedContentCompletion : ApiResponse :=
  ⟨⟨[], some "\x7b\"name\": \"\"\x7d"⟩, none⟩

/-- C2 amended witness: the tool-call path returns the empty mapping
unvalidated, the content path rejects the empty object, and the content
path accepts an object whose only field has an empty value (key
truthiness, not value non-emptiness). -/
theorem C2_amended_witness :
    call_api parseForC2 (some "Entities") emptyToolCompletion =
      Except.ok (attachTokens [] (usageInputTokens emptyToolCompletion.usage)
        (usageOutputTokens emptyToolCompletion.usage)) ∧
    call_api parseForC2 (some "Entities") emptyObjContentCompletion =
      Except.error (ApiError.valueError (emptyJsonMessage "Entities" "\x7b\x7d")) ∧
    call_api parseForC2 (some "Entities") namedContentCompletion =
      Except.ok (attachTokens [("name", Json.str "")]
        (usageInputTokens namedContentCompletion.usage)
        (usageOutputTokens namedContentCompletion.usage)) :=
  C2_amended_validation_content_path_only parseForC2 emptyToolCompletion
    emptyObjContentCompletion namedContentCompletion "Entities"
    ⟨"\x7b\x7d"⟩ [] [] [] [("name", Json.str "")] "\x7b\x7d" "\x7b\"name\": \"\"\x7d"
    rfl rfl rfl rfl (by decide) rfl rfl rfl rfl (by decide) rfl rfl
